import Mathlib

/-!
Verification of the game-of-life-ncurses simulator (src/main.cpp) against its
natural-language specification.  The C++ code is shallowly embedded: the grid
is a structure holding its dimensions and a flat list of boolean cells, the
stochastic operators are parameterised by the stream of draws produced by a
default-constructed random engine, and one iteration of the interactive
control loop in main is a pure transition function on the loop state.
-/

/-- Conversion of a C++ boolean used as an arithmetic operand (0 or 1). -/
def b2i (b : Bool) : Nat := if b then 1 else 0

/-- constexpr auto min_tick_ms = 8 (main, line 251). -/
def min_tick_ms : Nat := 8

/-- constexpr auto max_tick_ms = 1024 (main, line 252). -/
def max_tick_ms : Nat := 1024

/-- The grid class: width, height and the flat cell array data, whose length
is width * height for every grid the program builds. -/
structure Grid where
  width : Nat
  height : Nat
  cells : List Bool
deriving DecidableEq

/-- The index computed by grid::operator() (main.cpp line 48):
((x+width)%width) + ((y+height)%height) * width, where % is the C++
truncated remainder on int, i.e. Int.tmod. -/
def cppIndex (w h : Nat) (x y : Int) : Int :=
  (x + w).tmod w + ((y + h).tmod h) * w

/-- Reading data[cppIndex ...].  A negative index is undefined behaviour in
the C++ code; the embedding totalises the read with a default, and every
claim about index validity is stated on cppIndex itself. -/
def Grid.cell (g : Grid) (x y : Int) : Bool :=
  g.cells.getD (cppIndex g.width g.height x y).toNat false

/-- The grid constructor (main.cpp lines 39-43): it records the dimensions
and allocates width*height booleans with new bool[width*height].  That
new-expression default-initialises the array, so the cell values are
indeterminate; the ambient memory content mem supplies them. -/
def grid_construct (w h : Nat) (mem : Nat → Bool) : Grid :=
  { width := w, height := h, cells := (List.range (w * h)).map mem }

/-- The neighbour sum computed by next_generation (main.cpp lines 140-151)
for the cell at (x, y). -/
def neighbours (g : Grid) (wrap : Bool) (x y : Int) : Nat :=
  let left := wrap || decide (x ≠ 0)
  let up := wrap || decide (y ≠ 0)
  let right := wrap || decide (x ≠ (g.width : Int) - 1)
  let down := wrap || decide (y ≠ (g.height : Int) - 1)
  b2i (left && up && g.cell (x - 1) (y - 1)) +
  b2i (left && g.cell (x - 1) y) +
  b2i (left && down && g.cell (x - 1) (y + 1)) +
  b2i (up && g.cell x (y - 1)) +
  b2i (down && g.cell x (y + 1)) +
  b2i (right && up && g.cell (x + 1) (y - 1)) +
  b2i (right && g.cell (x + 1) y) +
  b2i (right && down && g.cell (x + 1) (y + 1))

/-- The value written to out(x, y) by next_generation (main.cpp line 152). -/
def lifeCell (g : Grid) (wrap : Bool) (x y : Int) : Bool :=
  decide (neighbours g wrap x y = 3) ||
    (g.cell x y && decide (neighbours g wrap x y = 2))

/-- next_generation (main.cpp lines 133-155).  The loops write
out(x, y) for every x in [0, width) and y in [0, height); since out is
fully overwritten and shares the dimensions of the input, the result is the
grid whose flat cell i (= x + y*width) holds the rule value at
(i % width, i / width). -/
def next_generation (g : Grid) (wrap : Bool) : Grid :=
  { width := g.width, height := g.height,
    cells := (List.range (g.width * g.height)).map
      (fun i => lifeCell g wrap ((i % g.width : Nat) : Int) ((i / g.width : Nat) : Int)) }

/-- Modelled from the spec: the contribution of one neighbour position.
When wrap is true the position is addressed modulo the dimensions; when
wrap is false a position across the boundary contributes 0 and an in-range
position contributes its cell value. -/
def specNeighbour (g : Grid) (wrap : Bool) (x y : Int) : Nat :=
  if wrap then b2i (g.cell x y)
  else if 0 ≤ x ∧ x < (g.width : Int) ∧ 0 ≤ y ∧ y < (g.height : Int) then b2i (g.cell x y)
  else 0

/-- Modelled from the spec: the live-neighbour count of (x, y) over the
eight surrounding positions under the given edge policy. -/
def specNeighbourCount (g : Grid) (wrap : Bool) (x y : Int) : Nat :=
  specNeighbour g wrap (x - 1) (y - 1) + specNeighbour g wrap (x - 1) y +
  specNeighbour g wrap (x - 1) (y + 1) + specNeighbour g wrap x (y - 1) +
  specNeighbour g wrap x (y + 1) + specNeighbour g wrap (x + 1) (y - 1) +
  specNeighbour g wrap (x + 1) y + specNeighbour g wrap (x + 1) (y + 1)

/-- One step of std::default_random_engine, which is minstd_rand0 in the
implementation the program is built with: s maps to 16807 * s mod 2147483647. -/
def minstd0 (s : Nat) : Nat := (16807 * s) % 2147483647

/-- The raw output stream of a default-constructed engine (default seed 1):
element k is the result of k+1 engine steps from seed 1. -/
def engine_raw : Nat → Nat
  | 0 => minstd0 1
  | n + 1 => minstd0 (engine_raw n)

/-- uniform_int_distribution over [lo, hi] applied to one raw engine output.
The exact mapping is implementation defined; it is modelled as the remainder
into the range.  No claim below depends on the concrete values, only on the
stream being a fixed function of the call index. -/
def uniform_map (lo hi raw : Nat) : Nat := lo + raw % (hi - lo + 1)

/-- Draw stream used by grid::big_bang: uniform_int_distribution(0, 10)
over a fresh default-constructed engine (main.cpp line 60). -/
def big_bang_stream (k : Nat) : Nat := uniform_map 0 10 (engine_raw k)

/-- Draw stream used by grid::thanos: uniform_int_distribution(0, 1)
over a fresh default-constructed engine (main.cpp line 77). -/
def thanos_stream (k : Nat) : Nat := uniform_map 0 1 (engine_raw k)

/-- The loop body of grid::big_bang (main.cpp lines 61-65): each dead cell
is set from the next generator draw (alive iff the draw is 0); live cells
are skipped and consume no draw.  k is the number of draws consumed. -/
def big_bang_go (ds : Nat → Nat) : List Bool → Nat → List Bool
  | [], _ => []
  | c :: cs, k =>
    if c then true :: big_bang_go ds cs k
    else decide (ds k = 0) :: big_bang_go ds cs (k + 1)

/-- The loop body of grid::thanos (main.cpp lines 78-82): each live cell is
set to bool of the next generator draw (stays alive iff the draw is
nonzero); dead cells are skipped and consume no draw. -/
def thanos_go (ds : Nat → Nat) : List Bool → Nat → List Bool
  | [], _ => []
  | c :: cs, k =>
    if c then decide (ds k ≠ 0) :: thanos_go ds cs (k + 1)
    else false :: thanos_go ds cs k

/-- grid::big_bang (main.cpp lines 57-66), with the stream of the fresh
default-constructed engine it builds on every call. -/
def Grid.bigBang (g : Grid) : Grid :=
  { g with cells := big_bang_go big_bang_stream g.cells 0 }

/-- grid::invert (main.cpp lines 67-73): complement every cell. -/
def Grid.invert (g : Grid) : Grid :=
  { g with cells := g.cells.map (fun c => !c) }

/-- grid::thanos (main.cpp lines 74-83), with the stream of the fresh
default-constructed engine it builds on every call. -/
def Grid.thanos (g : Grid) : Grid :=
  { g with cells := thanos_go thanos_stream g.cells 0 }

/-- Number of live cells of a flat cell list. -/
def liveCount (cs : List Bool) : Nat := cs.count true

/-- A call to grid::big_bang as it would look if the ambient random-engine
state were threaded through the program: w is that ambient state.  The code
constructs a fresh default engine inside the call (main.cpp line 60), so the
result ignores w and w is left untouched. -/
def big_bang_call (cs : List Bool) (w : Nat) : List Bool × Nat :=
  (big_bang_go big_bang_stream cs 0, w)

/-- A call to grid::thanos with the ambient random-engine state w, ignored
and untouched for the same reason (main.cpp line 77). -/
def thanos_call (cs : List Bool) (w : Nat) : List Bool × Nat :=
  (thanos_go thanos_stream cs 0, w)

/-- The outcome set of uniform_int_distribution over [lo, hi]. -/
def uniform_outcomes (lo hi : Nat) : Finset Nat := Finset.Icc lo hi

/-- Probability that one uniform draw over [lo, hi] makes a cell alive
under the test draw == 0. -/
def alive_prob (lo hi : Nat) : ℚ :=
  (((uniform_outcomes lo hi).filter (fun v => v = 0)).card : ℚ) /
    ((uniform_outcomes lo hi).card : ℚ)

/-- Per-cell alive probability of grid::big_bang for a dead cell:
uniform_int_distribution(0, 10), alive iff the draw equals 0
(main.cpp lines 60-63). -/
def big_bang_alive_prob : ℚ := alive_prob 0 10

/-- The frequency constant of the initial randomization in the game_of_life
constructor (main.cpp line 166). -/
def init_frequency : Nat := 3

/-- Per-cell alive probability of the initial board randomization:
uniform_int_distribution(0, frequency), alive iff the draw equals 0
(main.cpp lines 169-173). -/
def init_alive_prob : ℚ := alive_prob 0 init_frequency

/-- The dimensions with which new_game (main.cpp lines 232-245) constructs
the game_of_life: terminal width/height from getmaxyx, each overridden by
the parsed environment value when present, with the height doubled.  No
coercion or validation is applied. -/
def new_game_dims (termW termH : Int) (envW envH : Option Int) : Int × Int :=
  let w := envW.getD termW
  let h := envH.getD termH
  (w, h * 2)

/-- double_buffered_grid (main.cpp lines 91-120): two grids a and b and the
flag first selecting which is the front. -/
structure DBuf where
  first : Bool
  a : Grid
  b : Grid
deriving DecidableEq

/-- front() (main.cpp lines 98-102). -/
def DBuf.front (d : DBuf) : Grid := if d.first then d.a else d.b

/-- back() (main.cpp lines 104-108). -/
def DBuf.back (d : DBuf) : Grid := if d.first then d.b else d.a

/-- swap() (main.cpp lines 110-114). -/
def DBuf.swap (d : DBuf) : DBuf := { d with first := !d.first }

/-- Writing a new content into the back grid. -/
def DBuf.setBack (d : DBuf) (g : Grid) : DBuf :=
  if d.first then { d with b := g } else { d with a := g }

/-- Replacing the front grid (the target of the perturbation operators). -/
def DBuf.setFront (d : DBuf) (g : Grid) : DBuf :=
  if d.first then { d with a := g } else { d with b := g }

/-- game_of_life::tick (main.cpp lines 203-208): next_generation from front
into back, then swap. -/
def game_tick (d : DBuf) (wrap : Bool) : DBuf :=
  (d.setBack (next_generation d.front wrap)).swap

/-- game_of_life::big_bang (main.cpp lines 210-214). -/
def game_big_bang (d : DBuf) : DBuf := d.setFront d.front.bigBang

/-- game_of_life::invert (main.cpp lines 216-220). -/
def game_invert (d : DBuf) : DBuf := d.setFront d.front.invert

/-- game_of_life::thanos (main.cpp lines 221-225). -/
def game_thanos (d : DBuf) : DBuf := d.setFront d.front.thanos

/-- The result of getch() for one loop iteration: the resize signal
KEY_RESIZE, the no-input timeout sentinel ERR, or a character key. -/
inductive Key where
  | resize
  | noKey
  | ch (c : Char)
deriving DecidableEq

/-- The mutable state of the control loop in main: tick_ms, running, wrap
and the game buffer. -/
structure LoopState where
  tick_ms : Nat
  running : Bool
  wrap : Bool
  buf : DBuf
deriving DecidableEq

/-- Observable outcome of one loop iteration: the new state, the number of
generation transitions (game.tick calls), the number of renders, and
whether the quit branch was taken. -/
structure IterOut where
  st : LoopState
  ticks : Nat
  renders : Nat
  quit : Bool
deriving DecidableEq

/-- The speed-decrease branch (main.cpp lines 272-275): double tick_ms
while below the maximum. -/
def speed_dec (t : Nat) : Nat := if t < max_tick_ms then t * 2 else t

/-- The speed-increase branch (main.cpp lines 278-281): halve tick_ms while
above the minimum. -/
def speed_inc (t : Nat) : Nat := if min_tick_ms < t then t / 2 else t

/-- The running flag after the pause-toggle branch (main.cpp lines 289-291). -/
def running_after (s : LoopState) (key : Key) : Bool :=
  if key = Key.ch 'p' || key = Key.ch ' ' then !s.running else s.running

/-- One iteration of the while loop of main (main.cpp lines 261-322) as a
pure transition.  selector is the per-iteration draw of the uniform(0,100000)
generator; fresh is the double buffer that new_game() would return this
iteration (its dimensions and randomized content come from the terminal,
the environment and the clock, all external inputs). -/
def loop_iter (s : LoopState) (key : Key) (selector : Nat) (fresh : DBuf) : IterOut :=
  let isNew := key = Key.resize || key = Key.ch 'r'
  let buf0 := if isNew then fresh else s.buf
  let t1 := if key = Key.ch '-' then speed_dec s.tick_ms else s.tick_ms
  let t2 := if key = Key.ch '+' then speed_inc t1 else t1
  let wrap1 := if key = Key.ch 'w' then !s.wrap else s.wrap
  let run1 := running_after s key
  let bbSel := key = Key.ch 'b' || (run1 && decide (selector = 0))
  let buf1 := if bbSel then game_tick (game_big_bang buf0) wrap1 else buf0
  let ivSel := key = Key.ch 'i' || (run1 && decide (selector = 1))
  let buf2 := if ivSel then game_invert buf1 else buf1
  let thSel := key = Key.ch 't' || (run1 && decide (selector = 2))
  let buf3 := if thSel then game_thanos buf2 else buf2
  let stepSel := run1 || key = Key.ch 's'
  let buf4 := if stepSel then game_tick buf3 wrap1 else buf3
  { st := { tick_ms := t2, running := run1, wrap := wrap1, buf := buf4 },
    ticks := (if bbSel then 1 else 0) + (if stepSel then 1 else 0),
    renders := (if isNew then 1 else 0) + (if bbSel then 1 else 0) +
      (if ivSel then 1 else 0) + (if thSel then 1 else 0) +
      (if stepSel then 1 else 0),
    quit := key = Key.ch 'q' }

/-- One speed event: a minus key (decrease speed) or a plus key. -/
inductive SpeedEvent where
  | dec
  | inc
deriving DecidableEq

/-- Applying one speed event to tick_ms, exactly the two branches of main. -/
def speed_apply (t : Nat) : SpeedEvent → Nat
  | SpeedEvent.dec => speed_dec t
  | SpeedEvent.inc => speed_inc t

/-- tick_ms after a sequence of speed events, starting from the initial
value min_tick_ms (main.cpp line 253). -/
def speed_run (es : List SpeedEvent) : Nat := es.foldl speed_apply min_tick_ms

/-- A concrete 1 by 2 grid used in witnesses and counterexamples. -/
def gS : Grid := ⟨1, 2, [false, true]⟩

/-- A concrete double buffer over gS. -/
def dbS : DBuf := ⟨true, gS, gS⟩

/-- A concrete paused loop state. -/
def stPaused : LoopState := ⟨8, false, true, dbS⟩

/-- A concrete running loop state. -/
def stRun : LoopState := ⟨8, true, true, dbS⟩

/-- A concrete 3 by 4 grid holding a vertical blinker. -/
def gC1 : Grid :=
  ⟨3, 4, [false, true, false, false, true, false, false, true, false, false, false, false]⟩

lemma alive_prob_zero (hi : Nat) : alive_prob 0 hi = 1 / (hi + 1 : ℚ) := by
  unfold alive_prob uniform_outcomes
  rw [Finset.filter_eq']
  simp [Nat.card_Icc]

lemma big_bang_go_live (ds : Nat → Nat) : ∀ (cs : List Bool) (k i : Nat),
    cs.get? i = some true → (big_bang_go ds cs k).get? i = some true := by
  intro cs
  induction cs with
  | nil => intro k i h; simp [List.get?] at h
  | cons c cs ih =>
    intro k i h
    cases i with
    | zero =>
      simp only [List.get?] at h
      cases c with
      | true => simp [big_bang_go]
      | false => simp at h
    | succ j =>
      simp only [List.get?] at h
      cases c with
      | true => simpa [big_bang_go] using ih k j h
      | false => simpa [big_bang_go] using ih (k + 1) j h

lemma thanos_go_count (ds : Nat → Nat) : ∀ (cs : List Bool) (k : Nat),
    liveCount (thanos_go ds cs k) ≤ liveCount cs := by
  intro cs
  induction cs with
  | nil => intro k; simp [thanos_go, liveCount]
  | cons c cs ih =>
    intro k
    cases c with
    | true =>
      simp only [thanos_go, liveCount, List.count_cons, if_pos rfl]
      have := ih (k + 1)
      by_cases h : ds k ≠ 0 <;> simp [h, liveCount] at this ⊢ <;> omega
    | false =>
      simp only [thanos_go, if_neg Bool.false_ne_true, liveCount, List.count_cons]
      have := ih k
      simp [liveCount] at this ⊢
      omega

lemma thanos_go_dead (ds : Nat → Nat) : ∀ (cs : List Bool) (k i : Nat),
    cs.get? i = some false → (thanos_go ds cs k).get? i = some false := by
  intro cs
  induction cs with
  | nil => intro k i h; simp [List.get?] at h
  | cons c cs ih =>
    intro k i h
    cases i with
    | zero =>
      simp only [List.get?] at h
      cases c with
      | true => simp at h
      | false => simp [thanos_go]
    | succ j =>
      simp only [List.get?] at h
      cases c with
      | true => simpa [thanos_go] using ih (k + 1) j h
      | false => simpa [thanos_go] using ih k j h

/-- The reachable values of tick_ms: the powers of two from 8 to 1024. -/
def tickOk (t : Nat) : Prop :=
  t = 8 ∨ t = 16 ∨ t = 32 ∨ t = 64 ∨ t = 128 ∨ t = 256 ∨ t = 512 ∨ t = 1024

lemma tickOk_speed_apply {t : Nat} (e : SpeedEvent) (h : tickOk t) :
    tickOk (speed_apply t e) := by
  rcases h with rfl | rfl | rfl | rfl | rfl | rfl | rfl | rfl <;> cases e <;>
    first
      | exact Or.inl rfl
      | exact Or.inr (Or.inl rfl)
      | exact Or.inr (Or.inr (Or.inl rfl))
      | exact Or.inr (Or.inr (Or.inr (Or.inl rfl)))
      | exact Or.inr (Or.inr (Or.inr (Or.inr (Or.inl rfl))))
      | exact Or.inr (Or.inr (Or.inr (Or.inr (Or.inr (Or.inl rfl)))))
      | exact Or.inr (Or.inr (Or.inr (Or.inr (Or.inr (Or.inr (Or.inl rfl))))))
      | exact Or.inr (Or.inr (Or.inr (Or.inr (Or.inr (Or.inr (Or.inr rfl))))))

lemma tickOk_foldl (es : List SpeedEvent) :
    ∀ t, tickOk t → tickOk (es.foldl speed_apply t) := by
  induction es with
  | nil => intro t h; exact h
  | cons e es ih => intro t h; exact ih _ (tickOk_speed_apply e h)

lemma cppIndex_inRange (w h : Nat) (x y : Int) (hx0 : 0 ≤ x) (hxw : x < (w : Int))
    (hy0 : 0 ≤ y) (hyh : y < (h : Int)) :
    cppIndex w h x y = x + y * w := by
  unfold cppIndex
  rw [Int.tmod_eq_emod (by omega) (by omega), Int.tmod_eq_emod (by omega) (by omega),
    Int.add_emod_self, Int.add_emod_self,
    Int.emod_eq_of_lt hx0 hxw, Int.emod_eq_of_lt hy0 hyh]

lemma index_lt (w h a b : Nat) (ha : a < w) (hb : b < h) : a + b * w < w * h := by
  calc a + b * w < w + b * w := by omega
    _ = (b + 1) * w := by ring
    _ ≤ h * w := Nat.mul_le_mul_right w hb
    _ = w * h := Nat.mul_comm h w

lemma getD_range_map {α : Type} (f : Nat → α) (n i : Nat) (hi : i < n) (d : α) :
    (((List.range n).map f).getD i d) = f i := by
  simp [List.getD_eq_getElem?_getD, List.getElem?_map, List.getElem?_range hi]

lemma next_generation_cell (g : Grid) (wrap : Bool) (x y : Int)
    (hw : 0 < g.width) (hx0 : 0 ≤ x) (hxw : x < (g.width : Int))
    (hy0 : 0 ≤ y) (hyh : y < (g.height : Int)) :
    (next_generation g wrap).cell x y = lifeCell g wrap x y := by
  obtain ⟨a, rfl⟩ : ∃ a : Nat, (a : Int) = x := ⟨x.toNat, Int.toNat_of_nonneg hx0⟩
  obtain ⟨b, rfl⟩ : ∃ b : Nat, (b : Int) = y := ⟨y.toNat, Int.toNat_of_nonneg hy0⟩
  have haw : a < g.width := by exact_mod_cast hxw
  have hbh : b < g.height := by exact_mod_cast hyh
  have hidx : cppIndex g.width g.height (a : Int) (b : Int) = ((a + b * g.width : Nat) : Int) := by
    rw [cppIndex_inRange _ _ _ _ hx0 hxw hy0 hyh]; push_cast; ring
  have hmod : (a + b * g.width) % g.width = a := by
    rw [Nat.add_mul_mod_self_right, Nat.mod_eq_of_lt haw]
  have hdiv : (a + b * g.width) / g.width = b := by
    rw [Nat.add_mul_div_right _ _ hw, Nat.div_eq_of_lt haw, Nat.zero_add]
  show ((next_generation g wrap).cells).getD
      (cppIndex (next_generation g wrap).width (next_generation g wrap).height
        (a : Int) (b : Int)).toNat false =
    lifeCell g wrap (a : Int) (b : Int)
  have hC : (next_generation g wrap).cells = (List.range (g.width * g.height)).map
      (fun i => lifeCell g wrap ((i % g.width : Nat) : Int) ((i / g.width : Nat) : Int)) := rfl
  rw [show (next_generation g wrap).width = g.width from rfl,
    show (next_generation g wrap).height = g.height from rfl, hC, hidx, Int.toNat_ofNat,
    getD_range_map _ _ _ (index_lt _ _ _ _ haw hbh), hmod, hdiv]

lemma specNb_eq (g : Grid) (x' y' : Int) (b : Bool)
    (hb : b = true ↔ (0 ≤ x' ∧ x' < (g.width : Int) ∧ 0 ≤ y' ∧ y' < (g.height : Int))) :
    b2i (b && g.cell x' y') = specNeighbour g false x' y' := by
  by_cases h : b = true
  · rw [h, specNeighbour, if_neg (by simp), if_pos (hb.mp h), Bool.true_and]
  · have hb' : b = false := by revert h; cases b <;> simp
    rw [hb', specNeighbour, if_neg (by simp), if_neg (fun hc => h (hb.mpr hc)), Bool.false_and]
    rfl

lemma neighbours_eq_spec (g : Grid) (wrap : Bool) (x y : Int)
    (hx0 : 0 ≤ x) (hxw : x < (g.width : Int)) (hy0 : 0 ≤ y) (hyh : y < (g.height : Int)) :
    neighbours g wrap x y = specNeighbourCount g wrap x y := by
  cases wrap with
  | true => simp [neighbours, specNeighbourCount, specNeighbour]
  | false =>
    unfold neighbours specNeighbourCount
    simp only [Bool.false_or]
    rw [specNb_eq g (x - 1) (y - 1) _ (by simp; omega),
      specNb_eq g (x - 1) y _ (by simp; omega),
      specNb_eq g (x - 1) (y + 1) _ (by simp; omega),
      specNb_eq g x (y - 1) _ (by simp; omega),
      specNb_eq g x (y + 1) _ (by simp; omega),
      specNb_eq g (x + 1) (y - 1) _ (by simp; omega),
      specNb_eq g (x + 1) y _ (by simp; omega),
      specNb_eq g (x + 1) (y + 1) _ (by simp; omega)]

/-- Claim C1: for every grid with positive dimensions, every in-range cell
(x, y) and every wrap flag, next_generation writes out(x, y) alive iff the
live-neighbour count over the eight surrounding positions equals 3, or the
input cell is alive and the count equals 2; when wrap is true the neighbours
wrap via modulo addressing and when wrap is false a neighbour across the
boundary contributes 0. -/
theorem next_generation_rule (g : Grid) (wrap : Bool) (x y : Int)
    (hw : 0 < g.width) (hh : 0 < g.height) (hx0 : 0 ≤ x) (hxw : x < (g.width : Int))
    (hy0 : 0 ≤ y) (hyh : y < (g.height : Int)) :
    ((next_generation g wrap).cell x y = true ↔
      (specNeighbourCount g wrap x y = 3 ∨
        (g.cell x y = true ∧ specNeighbourCount g wrap x y = 2))) := by
  rw [next_generation_cell g wrap x y hw hx0 hxw hy0 hyh, lifeCell,
    neighbours_eq_spec g wrap x y hx0 hxw hy0 hyh]
  simp

/-- Witness for C1: the rule equivalence instantiated at the centre of a
concrete blinker grid under the wrap topology. -/
theorem next_generation_rule_witness :
    ((next_generation gC1 true).cell 1 1 = true ↔
      (specNeighbourCount gC1 true 1 1 = 3 ∨
        (gC1.cell 1 1 = true ∧ specNeighbourCount gC1 true 1 1 = 2))) :=
  next_generation_rule gC1 true 1 1 (by decide) (by decide) (by decide) (by decide)
    (by decide) (by decide)

/-- Counterexample for C2: with running false, pressing the invert key
applies the perturbation to the front grid (the front cells are
complemented) yet the iteration performs no generation transition, refuting
the claim that a selected perturbation is always immediately followed by a
tick. -/
theorem invert_when_paused_no_tick :
    (loop_iter stPaused (Key.ch 'i') 5 dbS).ticks = 0 ∧
    (loop_iter stPaused (Key.ch 'i') 5 dbS).st.buf.front.cells = [true, false] := by decide

/-- Claim C2 (amended): an iteration that selects the big-bang perturbation
(key b, or the random draw 0 while running) always performs at least one
generation transition regardless of running; but in an iteration whose
running flag (after the pause toggle) is false and whose key is neither b
nor s, no generation transition occurs at all, so invert and thanos while
paused do not advance the simulation. -/
theorem perturbation_tick_policy (s : LoopState) (key : Key) (selector : Nat) (fresh : DBuf) :
    ((key = Key.ch 'b' ∨ (running_after s key = true ∧ selector = 0)) →
      1 ≤ (loop_iter s key selector fresh).ticks) ∧
    (running_after s key = false → key ≠ Key.ch 'b' → key ≠ Key.ch 's' →
      (loop_iter s key selector fresh).ticks = 0) := by
  constructor
  · intro h
    have hbb :
        (decide (key = Key.ch 'b') || (running_after s key && decide (selector = 0))) = true := by
      rcases h with h | ⟨h1, h2⟩
      · simp [h]
      · simp [h1, h2]
    cases hstep : (running_after s key || decide (key = Key.ch 's')) <;>
      simp only [loop_iter, hbb, hstep] <;> simp
  · intro h1 h2 h3
    have hbb :
        (decide (key = Key.ch 'b') || (running_after s key && decide (selector = 0))) = false := by
      simp [h1, h2]
    have hstep : (running_after s key || decide (key = Key.ch 's')) = false := by
      simp [h1, h3]
    simp only [loop_iter, hbb, hstep]
    simp

/-- Witness for C2: a forced big bang while paused still ticks, and a
forced thanos while paused does not. -/
theorem perturbation_tick_policy_witness :
    1 ≤ (loop_iter stPaused (Key.ch 'b') 5 dbS).ticks ∧
    (loop_iter stPaused (Key.ch 't') 5 dbS).ticks = 0 :=
  ⟨(perturbation_tick_policy stPaused (Key.ch 'b') 5 dbS).1 (Or.inl rfl),
   (perturbation_tick_policy stPaused (Key.ch 't') 5 dbS).2 (by decide) (by decide) (by decide)⟩

/-- Counterexample for C3: the per-cell alive probability of big_bang
(one draw over the eleven outcomes 0..10 equal to 0) differs from the
per-cell alive probability of the initial randomization (one draw over the
four outcomes 0..3 equal to 0), refuting the claimed equality of the two
per-cell Bernoulli distributions. -/
theorem big_bang_prob_differs : big_bang_alive_prob ≠ init_alive_prob := by
  rw [big_bang_alive_prob, init_alive_prob, init_frequency, alive_prob_zero, alive_prob_zero]
  norm_num

/-- Claim C3 (amended): big_bang seeds each currently-dead cell alive with
per-cell probability 1/11 per uniform draw, which is not the 1/4 used by
the initial board randomization, and it never changes a live cell to dead. -/
theorem big_bang_seeds_dead_cells :
    big_bang_alive_prob = 1 / 11 ∧ init_alive_prob = 1 / 4 ∧
    ∀ (g : Grid) (i : Nat), g.cells.get? i = some true →
      (Grid.bigBang g).cells.get? i = some true := by
  refine ⟨?_, ?_, fun g i h => big_bang_go_live big_bang_stream g.cells 0 i h⟩
  · rw [big_bang_alive_prob, alive_prob_zero]; norm_num
  · rw [init_alive_prob, init_frequency, alive_prob_zero]; norm_num

/-- Witness for C3: a live cell survives a big bang. -/
theorem big_bang_seeds_dead_cells_witness :
    (Grid.bigBang ⟨1, 1, [true]⟩).cells.get? 0 = some true :=
  big_bang_seeds_dead_cells.2.2 ⟨1, 1, [true]⟩ 0 rfl

/-- Counterexample for C4: a grid constructed over ambient memory that
holds nonzero bytes has a live cell before any operation touches it, since
the allocation in the constructor does not value-initialise the array;
this refutes the claim that every cell is dead after construction. -/
theorem grid_construct_live_cell :
    (grid_construct 1 2 (fun _ => true)).cell 0 0 = true := by decide

/-- Claim C4 (amended): construct(width, height) records the dimensions and
allocates exactly width times height cells, but their initial contents are
indeterminate (whatever the ambient memory holds), not guaranteed dead. -/
theorem grid_construct_allocates (w h : Nat) (mem : Nat → Bool) :
    (grid_construct w h mem).width = w ∧ (grid_construct w h mem).height = h ∧
    (grid_construct w h mem).cells.length = w * h := by
  refine ⟨rfl, rfl, ?_⟩
  simp [grid_construct]

/-- Claim C5: new_game applies no coercion at all: a zero terminal size or
a zero or negative environment override flows straight into the grid
constructor, so a grid with width 0 (and a modulo by zero in its accessor)
is constructible, contradicting the required coercion to at least 1 by 2. -/
theorem new_game_dims_no_coercion :
    new_game_dims 0 0 none none = (0, 0) ∧
    new_game_dims 80 24 (some 0) (some (-5)) = (0, -10) := ⟨rfl, rfl⟩

/-- Counterexample for C6: with running true and a resize or new-board key,
the remaining steps of the iteration are not bypassed: the freshly built
buffer is immediately advanced one generation in the same iteration,
refuting the claim that no generation transition occurs. -/
theorem resize_does_not_bypass :
    (loop_iter stRun (Key.ch 'r') 3 dbS).ticks = 1 ∧
    (loop_iter stRun (Key.ch 'r') 3 dbS).quit = false ∧
    (loop_iter stRun (Key.ch 'r') 3 dbS).st.buf = game_tick dbS true := by decide

/-- Claim C6 (amended): on the resize signal or the r key the buffer is
rebuilt from the fresh board and rendered and the loop is not exited, and
no speed, wrap or pause change occurs; but the rest of the iteration still
runs: while paused (and with a random selector above 2) the new buffer is
left untouched with no transition, while running the new buffer is advanced
one generation in that same iteration. -/
theorem resize_branch_effects (s : LoopState) (key : Key) (selector : Nat) (fresh : DBuf)
    (hkey : key = Key.resize ∨ key = Key.ch 'r') :
    (loop_iter s key selector fresh).quit = false ∧
    (loop_iter s key selector fresh).st.tick_ms = s.tick_ms ∧
    (loop_iter s key selector fresh).st.wrap = s.wrap ∧
    (loop_iter s key selector fresh).st.running = s.running ∧
    1 ≤ (loop_iter s key selector fresh).renders ∧
    (s.running = false → 2 < selector →
      (loop_iter s key selector fresh).st.buf = fresh ∧
      (loop_iter s key selector fresh).ticks = 0) ∧
    (s.running = true → 2 < selector →
      (loop_iter s key selector fresh).st.buf = game_tick fresh s.wrap ∧
      (loop_iter s key selector fresh).ticks = 1) := by
  have hsel : ∀ n : Nat, 2 < n →
      (decide (n = 0) = false ∧ decide (n = 1) = false ∧ decide (n = 2) = false) := by
    intro n hn
    refine ⟨?_, ?_, ?_⟩ <;> simp <;> omega
  rcases hkey with rfl | rfl <;>
    simp only [loop_iter, running_after] <;>
    refine ⟨by decide, by simp, by simp, by simp, by simp <;> omega, ?_, ?_⟩ <;>
    intro hrun hn <;>
    rcases hsel selector hn with ⟨h0, h1, h2⟩ <;>
    simp [hrun, h0, h1, h2]

/-- Witness for C6: a resize while running rebuilds and then ticks the
fresh buffer in the same iteration. -/
theorem resize_branch_effects_witness :
    (loop_iter stRun Key.resize 7 dbS).st.buf = game_tick dbS stRun.wrap ∧
    (loop_iter stRun Key.resize 7 dbS).ticks = 1 :=
  (resize_branch_effects stRun Key.resize 7 dbS (Or.inl rfl)).2.2.2.2.2.2 rfl (by decide)

/-- Claim C7: starting from tick_ms = min_tick_ms, any sequence of
speed-decrease (doubling) and speed-increase (halving) events leaves
tick_ms inside the interval from min_tick_ms to max_tick_ms. -/
theorem speed_clamp (es : List SpeedEvent) :
    min_tick_ms ≤ speed_run es ∧ speed_run es ≤ max_tick_ms := by
  have h := tickOk_foldl es min_tick_ms (Or.inl rfl)
  rcases h with h | h | h | h | h | h | h | h <;> rw [speed_run, h] <;>
    exact ⟨by decide, by decide⟩

/-- Counterexample for C8: at width 2 and height 2 the coordinates
(-3, 0) produce index -1, outside the allocated array, refuting the claim
that the modulo accessor is in bounds for all integer inputs. -/
theorem cppIndex_escapes :
    ¬ (0 ≤ cppIndex 2 2 (-3) 0 ∧
        cppIndex 2 2 (-3) 0 < ((2 : Nat) : Int) * ((2 : Nat) : Int)) := by
  decide

/-- Claim C8 (amended): for positive dimensions the accessor index is inside
the allocated array for every pair of integer coordinates with x at least
-width and y at least -height, which covers every access the program
performs (all offsets are at most one); coordinates below that bound can
produce a negative index. -/
theorem cppIndex_in_bounds (w h : Nat) (x y : Int)
    (hw : 0 < w) (hh : 0 < h) (hx : -(w : Int) ≤ x) (hy : -(h : Int) ≤ y) :
    0 ≤ cppIndex w h x y ∧ cppIndex w h x y < (w : Int) * h := by
  have hwpos : (0 : Int) < w := by exact_mod_cast hw
  have hhpos : (0 : Int) < h := by exact_mod_cast hh
  have hx0 : 0 ≤ x + w := by omega
  have hy0 : 0 ≤ y + h := by omega
  have h1 : 0 ≤ (x + w).tmod w := Int.tmod_nonneg _ hx0
  have h2 : (x + w).tmod w < w := Int.tmod_lt_of_pos _ hwpos
  have h3 : 0 ≤ (y + h).tmod h := Int.tmod_nonneg _ hy0
  have h4 : (y + h).tmod h < h := Int.tmod_lt_of_pos _ hhpos
  unfold cppIndex
  constructor
  · have := Int.mul_nonneg h3 (Int.le_of_lt hwpos)
    omega
  · nlinarith [h2, h4, hwpos]

/-- Witness for C8: the bound instantiated at width 2, height 2 and the
coordinates (-2, -1). -/
theorem cppIndex_in_bounds_witness :
    0 ≤ cppIndex 2 2 (-2) (-1) ∧
    cppIndex 2 2 (-2) (-1) < ((2 : Nat) : Int) * ((2 : Nat) : Int) :=
  cppIndex_in_bounds 2 2 (-2) (-1) (by decide) (by decide) (by decide) (by decide)

/-- Claim C9: thanos never increases the live-cell count and every cell
that was dead before remains dead afterwards. -/
theorem thanos_nonincreasing (g : Grid) :
    liveCount (Grid.thanos g).cells ≤ liveCount g.cells ∧
    ∀ i : Nat, g.cells.get? i = some false →
      (Grid.thanos g).cells.get? i = some false :=
  ⟨thanos_go_count thanos_stream g.cells 0,
   fun i h => thanos_go_dead thanos_stream g.cells 0 i h⟩

/-- Witness for C9: on a concrete grid the count bound holds and the dead
cell at index 0 stays dead. -/
theorem thanos_nonincreasing_witness :
    liveCount (Grid.thanos ⟨1, 2, [false, true]⟩).cells ≤ liveCount [false, true] ∧
    (Grid.thanos ⟨1, 2, [false, true]⟩).cells.get? 0 = some false :=
  ⟨(thanos_nonincreasing ⟨1, 2, [false, true]⟩).1,
   (thanos_nonincreasing ⟨1, 2, [false, true]⟩).2 0 rfl⟩

/-- Claim C10: big_bang and thanos are deterministic functions of the grid
contents: each call constructs a fresh default-constructed engine, so the
result neither depends on nor advances any ambient random-engine state, and
two calls on equal cell contents produce identical grids. -/
theorem perturbations_deterministic (g : Grid) (w₁ w₂ : Nat) :
    (big_bang_call g.cells w₁).1 = (big_bang_call g.cells w₂).1 ∧
    (thanos_call g.cells w₁).1 = (thanos_call g.cells w₂).1 ∧
    (Grid.bigBang g).cells = (big_bang_call g.cells w₁).1 ∧
    (Grid.thanos g).cells = (thanos_call g.cells w₁).1 ∧
    (big_bang_call g.cells w₁).2 = w₁ ∧ (thanos_call g.cells w₁).2 = w₁ :=
  ⟨rfl, rfl, rfl, rfl, rfl, rfl⟩
